import Mathlib

/-!
Shallow embedding of the workout/template reconciliation engine of the
`lifted` workout-tracking application, together with proofs of the
specification's testable properties.

Embedded source files:
* `src/shared/models/*` — the record types (`Set`, `Exercise`,
  `ExerciseGroup`, `WorkoutTemplate`, `WorkoutInstance`, `WorkoutChanges`,
  `PreviousWorkoutData`).
* the change-detection service (`detectChanges`,
  `detectExerciseModification`).
* the template-reconciliation service (`applyTemplateUpdate` with its four
  strategies `values_only`, `template_and_values`, `save_as_new`,
  `keep_original`).
* `getPreviousWorkoutData` from `src/shared/services/firebase/firestoreService.ts`.
* the session timer of the `WorkoutProvider` context.

Modelling conventions:
* JavaScript `number` values (reps, weights, milliseconds, …) are `Int`;
  `Date` values are epoch milliseconds (`Int`).
* TypeScript optional fields (`x?: T`) are `Option`; JavaScript `undefined`
  is `none`, and `a ?? b` is `a <|> b`.
* Dereferencing a possibly-`undefined` array (`.map`, `.find`, `for … of`)
  throws a `TypeError` in JavaScript; fallible operations therefore return
  `Option`, with `none` modelling the thrown exception, and the `Option`
  bind is placed exactly where the JavaScript dereference happens.
* `Date.now()`-based timestamps are passed in as an explicit `now`
  parameter, and the `toLocaleDateString` suffix of `save_as_new` as an
  explicit `dateStr` parameter.
* The `Date.now()`/`Math.random()`-based unique id strings are modelled by
  the constant `generatedId`: no verified property depends on their
  uniqueness (the specification compares templates modulo freshly
  generated identifiers).
-/

set_option maxHeartbeats 1000000

namespace Lifted

/-- `ExerciseType` from `src/shared/models/Exercise.ts`. -/
inductive ExerciseType
  | strength
  | cardio
  | bodyweight
  | timed
deriving DecidableEq, Repr, Inhabited

/-- `Set` from `src/shared/models/Set.ts`: one planned/performed unit of
work, with optional target and actual values in four dimensions. -/
structure Set where
  id : String
  setNumber : Int
  targetReps : Option Int := none
  targetWeight : Option Int := none
  targetTime : Option Int := none
  targetDistance : Option Int := none
  actualReps : Option Int := none
  actualWeight : Option Int := none
  actualTime : Option Int := none
  actualDistance : Option Int := none
  completed : Bool
  skipped : Bool
deriving DecidableEq, Repr, Inhabited

/-- `Exercise` from `src/shared/models/Exercise.ts`. -/
structure Exercise where
  id : String
  name : String
  exerciseType : ExerciseType
  sets : List Set
  notes : Option String := none
  restTimer : Option Int := none
  supersetWith : Option String := none
  order : Int
deriving DecidableEq, Repr, Inhabited

/-- `ExerciseGroup` from `src/shared/models/ExerciseGroup.ts`. -/
structure ExerciseGroup where
  id : String
  name : String
  order : Int
  exercises : List Exercise
deriving DecidableEq, Repr

/-- The change type tag of an exercise modification
(`src/shared/models/WorkoutInstance.ts`).  The source names the middle
constructor `structure`, a reserved word in Lean, so it is `structural`
here. -/
inductive ChangeType
  | values
  | structural
  | both
deriving DecidableEq, Repr

/-- The `details` record of an `ExerciseModification`. -/
structure ModificationDetails where
  setsAdded : Option Nat := none
  setsRemoved : Option Nat := none
  valuesChanged : Option Bool := none
deriving DecidableEq, Repr

/-- `ExerciseModification` from `src/shared/models/WorkoutInstance.ts`. -/
structure ExerciseModification where
  exerciseId : String
  exerciseName : String
  changeType : ChangeType
  details : ModificationDetails
deriving DecidableEq, Repr

/-- The per-set snapshot stored for a deleted exercise. -/
structure OriginalSetSnapshot where
  setNumber : Int
  targetReps : Option Int := none
  targetWeight : Option Int := none
  targetTime : Option Int := none
deriving DecidableEq, Repr

/-- `DeletedExercise` from `src/shared/models/WorkoutInstance.ts`. -/
structure DeletedExercise where
  exerciseId : String
  exerciseName : String
  originalSets : List OriginalSetSnapshot
deriving DecidableEq, Repr

/-- `SkippedExercise` from `src/shared/models/WorkoutInstance.ts`. -/
structure SkippedExercise where
  exerciseId : String
  exerciseName : String
deriving DecidableEq, Repr

/-- `AddedExercise` from `src/shared/models/WorkoutInstance.ts`. -/
structure AddedExercise where
  exerciseId : String
  exerciseName : String
deriving DecidableEq, Repr

/-- `WorkoutChanges` from `src/shared/models/WorkoutInstance.ts`:
the change detector's output. -/
structure WorkoutChanges where
  modifiedExercises : List ExerciseModification
  deletedExercises : List DeletedExercise
  skippedExercises : List SkippedExercise
  addedExercises : List AddedExercise
deriving DecidableEq, Repr

/-- `WorkoutTemplate` from `src/shared/models/WorkoutTemplate.ts`.
`exercises` is optional (deprecated flat format) and `groups` is the new
storage format; timestamps are epoch milliseconds. -/
structure WorkoutTemplate where
  id : String
  name : String
  description : Option String := none
  exercises : Option (List Exercise) := none
  groups : Option (List ExerciseGroup) := none
  createdAt : Int
  updatedAt : Int
  lastUsed : Option Int := none
  tags : Option (List String) := none
  userId : String
  archived : Option Bool := none
deriving DecidableEq, Repr

/-- `WorkoutInstance` from `src/shared/models/WorkoutInstance.ts`. -/
structure WorkoutInstance where
  id : String
  templateId : String
  templateName : String
  startTime : Int
  endTime : Option Int := none
  exercises : Option (List Exercise) := none
  groups : Option (List ExerciseGroup) := none
  isActive : Bool
  changesSummary : Option WorkoutChanges := none
  notes : Option String := none
  userId : String
  archived : Option Bool := none
deriving DecidableEq, Repr

/-- `PreviousSetData` from `src/shared/models/PreviousWorkoutData.ts`. -/
structure PreviousSetData where
  setNumber : Int
  weight : Option Int := none
  reps : Option Int := none
  time : Option Int := none
deriving DecidableEq, Repr

/-- `PreviousWorkoutData` from `src/shared/models/PreviousWorkoutData.ts`. -/
structure PreviousWorkoutData where
  exerciseId : String
  exerciseName : String
  lastPerformed : Int
  sets : List PreviousSetData
deriving DecidableEq, Repr

/-- Placeholder for the `Date.now()`/`Math.random()`-based unique id
strings generated for brand-new entities; no verified property depends on
their uniqueness. -/
def generatedId : String := "generated_id"

/-- Model of JavaScript `toLowerCase()` (characterwise lowering; the
engine only ever compares the lowered forms of exercise names).  Core's
lowering is avoided because its `mapAux` recursion does not reduce
in the kernel. -/
def strLower (s : String) : String := ⟨s.data.map Char.toLower⟩

/-! ## Change detector (`detectChanges` service) -/

/-- The `hasAnyValues` test of `detectChanges`: a set counts as carrying a
value when it is completed or has an actual reps/weight/time value.  The
source does not consult `actualDistance`. -/
def hasAnyValues (e : Exercise) : Bool :=
  e.sets.any fun s =>
    s.completed || s.actualReps.isSome || s.actualWeight.isSome || s.actualTime.isSome

/-- `detectExerciseModification` from the change-detection service:
compares a workout exercise to its matching template exercise, reporting
set-count changes and value changes on completed sets of the overlapping
index range, or `none` when nothing changed. -/
def detectExerciseModification (workoutExercise originalExercise : Exercise) :
    Option ExerciseModification :=
  let originalSetCount := originalExercise.sets.length
  let workoutSetCount := workoutExercise.sets.length
  let setsAdded := if originalSetCount < workoutSetCount then workoutSetCount - originalSetCount else 0
  let setsRemoved := if workoutSetCount < originalSetCount then originalSetCount - workoutSetCount else 0
  let structureChanged := workoutSetCount != originalSetCount
  let valuesChanged := (originalExercise.sets.zip workoutExercise.sets).any fun p =>
    p.2.completed &&
      (p.2.actualReps != p.1.targetReps ||
       p.2.actualWeight != p.1.targetWeight ||
       p.2.actualTime != p.1.targetTime)
  if !valuesChanged && !structureChanged then
    none
  else
    some
      { exerciseId := workoutExercise.id
        exerciseName := workoutExercise.name
        changeType :=
          if valuesChanged && structureChanged then ChangeType.both
          else if structureChanged then ChangeType.structural
          else ChangeType.values
        details :=
          { setsAdded := if 0 < setsAdded then some setsAdded else none
            setsRemoved := if 0 < setsRemoved then some setsRemoved else none
            valuesChanged := some valuesChanged } }

/-- The per-instance-exercise loop of `detectChanges`, classifying each
instance exercise as added, skipped, modified, or unchanged (dropped).
Returns the `(modified, skipped, added)` lists in traversal order. -/
def classifyInstanceExercises (tes : List Exercise) (originalNames : List String) :
    List Exercise → List ExerciseModification × List SkippedExercise × List AddedExercise
  | [] => ([], [], [])
  | ex :: rest =>
    let r := classifyInstanceExercises tes originalNames rest
    if !(originalNames.contains (strLower ex.name)) then
      (r.1, r.2.1, ⟨ex.id, ex.name⟩ :: r.2.2)
    else
      match tes.find? (fun e => strLower e.name == strLower ex.name) with
      | none => r
      | some originalExercise =>
        if !(hasAnyValues ex) then
          (r.1, ⟨ex.id, ex.name⟩ :: r.2.1, r.2.2)
        else
          match detectExerciseModification ex originalExercise with
          | some modification => (modification :: r.1, r.2.1, r.2.2)
          | none => r

/-- `detectChanges(workout, originalTemplate)`: compare a finished workout
instance with its originating template and classify every difference.
The source dereferences `originalTemplate.exercises` and
`workout.exercises` unconditionally, so an absent list (groups storage
format) throws, modelled by `none`. -/
def detectChanges (workout : WorkoutInstance) (originalTemplate : WorkoutTemplate) :
    Option WorkoutChanges := do
  let tes ← originalTemplate.exercises
  let wes ← workout.exercises
  let originalNames := tes.map fun e => strLower e.name
  let r := classifyInstanceExercises tes originalNames wes
  let deleted :=
    (tes.filter fun originalExercise =>
        !(wes.any fun e => strLower e.name == strLower originalExercise.name)).map
      fun originalExercise =>
        { exerciseId := originalExercise.id
          exerciseName := originalExercise.name
          originalSets := originalExercise.sets.map fun s =>
            { setNumber := s.setNumber
              targetReps := s.targetReps
              targetWeight := s.targetWeight
              targetTime := s.targetTime } }
  pure
    { modifiedExercises := r.1
      deletedExercises := deleted
      skippedExercises := r.2.1
      addedExercises := r.2.2 }

/-! ## Template reconciler (`applyTemplateUpdate` service) -/

/-- The four reconciliation strategies (`UpdateOption` in the source). -/
inductive UpdateOption
  | values_only
  | template_and_values
  | save_as_new
  | keep_original
deriving DecidableEq, Repr

/-- The per-set overwrite of `updateValuesOnly`: on a completed workout
set, replace the template set's reps/weight/time targets by the actual
values, falling back (`??`) to the previous target per dimension. -/
def overwriteTargets (templateSet workoutSet : Set) : Set :=
  { templateSet with
    targetReps := workoutSet.actualReps <|> templateSet.targetReps
    targetWeight := workoutSet.actualWeight <|> templateSet.targetWeight
    targetTime := workoutSet.actualTime <|> templateSet.targetTime }

/-- The indexed set walk of `updateValuesOnly`
(`templateExercise.sets.map((templateSet, index) => …)`): a template set
at index `i` is overwritten only when the workout exercise has a completed
set at index `i`. -/
def updateValuesSets (workoutSets : List Set) : Nat → List Set → List Set
  | _, [] => []
  | i, templateSet :: rest =>
    (match workoutSets[i]? with
      | some workoutSet =>
        if workoutSet.completed then overwriteTargets templateSet workoutSet else templateSet
      | none => templateSet) :: updateValuesSets workoutSets (i + 1) rest

/-- The per-exercise body of `updateValuesOnly`: find the name-matching
workout exercise; keep the template exercise untouched when there is
none, otherwise update its existing sets in place. -/
def updateValuesExercise (wes : List Exercise) (templateExercise : Exercise) : Exercise :=
  match wes.find? (fun e => strLower e.name == strLower templateExercise.name) with
  | none => templateExercise
  | some workoutExercise =>
    { templateExercise with sets := updateValuesSets workoutExercise.sets 0 templateExercise.sets }

/-- The exercise walk of `updateValuesOnly`; the callback dereferences
`workout.exercises`, so that list being absent throws as soon as the
template has at least one exercise. -/
def updateValuesExercises (workout : WorkoutInstance) :
    List Exercise → Option (List Exercise)
  | [] => some []
  | templateExercise :: rest => do
    let wes ← workout.exercises
    let r ← updateValuesExercises workout rest
    pure (updateValuesExercise wes templateExercise :: r)

/-- `updateValuesOnly` (strategy `values_only`): overwrite targets of
existing template sets from completed workout sets; structure is frozen.
`now` stands for the `new Date()` stored in `updatedAt`. -/
def updateValuesOnly (template : WorkoutTemplate) (workout : WorkoutInstance) (now : Int) :
    Option WorkoutTemplate := do
  let tes ← template.exercises
  let updatedExercises ← updateValuesExercises workout tes
  pure { template with exercises := some updatedExercises, updatedAt := now }

/-- The reconstructed target set of `updateTemplateAndValues`: every
workout set becomes a target set numbered `index + 1`, taking the actual
values when completed and the carried-over targets otherwise.  The source
object literal lists only the reps/weight/time targets, so the rebuilt set
has no target distance and no actual values. -/
def rebuildSet (workoutSet : Set) (index : Nat) : Set :=
  { id := workoutSet.id
    setNumber := Int.ofNat (index + 1)
    targetReps := if workoutSet.completed then workoutSet.actualReps else workoutSet.targetReps
    targetWeight := if workoutSet.completed then workoutSet.actualWeight else workoutSet.targetWeight
    targetTime := if workoutSet.completed then workoutSet.actualTime else workoutSet.targetTime
    completed := false
    skipped := false }

/-- The indexed rebuild of a whole set list
(`workoutExercise.sets.map((workoutSet, index) => …)`). -/
def rebuildSets : Nat → List Set → List Set
  | _, [] => []
  | i, workoutSet :: rest => rebuildSet workoutSet i :: rebuildSets (i + 1) rest

/-- The existing-exercise loop of `updateTemplateAndValues`: drop deleted
exercises, copy skipped ones through unchanged, and replace every other
template exercise that has a name-matching workout exercise by its rebuilt
form (sets rebuilt from the workout, rest timer taken from the workout). -/
def processExistingExercises (workout : WorkoutInstance) (deletedNames skippedNames : List String) :
    List Exercise → Option (List Exercise)
  | [] => some []
  | templateExercise :: rest =>
    if deletedNames.contains (strLower templateExercise.name) then
      processExistingExercises workout deletedNames skippedNames rest
    else if skippedNames.contains (strLower templateExercise.name) then do
      let r ← processExistingExercises workout deletedNames skippedNames rest
      pure (templateExercise :: r)
    else do
      let wes ← workout.exercises
      let r ← processExistingExercises workout deletedNames skippedNames rest
      match wes.find? (fun e => strLower e.name == strLower templateExercise.name) with
      | none => pure (templateExercise :: r)
      | some workoutExercise =>
        pure ({ templateExercise with
                  sets := rebuildSets 0 workoutExercise.sets
                  restTimer := workoutExercise.restTimer } :: r)

/-- The brand-new template exercise appended for an entry of the
`addedExercises` list: the workout exercise with a fresh id, `order` set
to the current output length, and each set's targets taken unconditionally
from the actual values. -/
def newTemplateExercise (workoutExercise : Exercise) (ord : Nat) : Exercise :=
  { workoutExercise with
    id := generatedId
    order := Int.ofNat ord
    sets := newTemplateSets 0 workoutExercise.sets }
where
  newTemplateSets : Nat → List Set → List Set
    | _, [] => []
    | i, s :: rest =>
      { id := generatedId
        setNumber := Int.ofNat (i + 1)
        targetReps := s.actualReps
        targetWeight := s.actualWeight
        targetTime := s.actualTime
        completed := false
        skipped := false } :: newTemplateSets (i + 1) rest

/-- The added-exercise loop of `updateTemplateAndValues`: for every entry
of the change set's `addedExercises`, look the workout exercise up by id
and append it as a brand-new template exercise. -/
def appendAddedExercises (workout : WorkoutInstance) :
    List AddedExercise → List Exercise → Option (List Exercise)
  | [], acc => some acc
  | added :: rest, acc => do
    let wes ← workout.exercises
    match wes.find? (fun e => e.id == added.exerciseId) with
    | some workoutExercise =>
      appendAddedExercises workout rest (acc ++ [newTemplateExercise workoutExercise acc.length])
    | none => appendAddedExercises workout rest acc

/-- `updateTemplateAndValues` (strategy `template_and_values`). -/
def updateTemplateAndValues (template : WorkoutTemplate) (workout : WorkoutInstance)
    (changes : WorkoutChanges) (now : Int) : Option WorkoutTemplate := do
  let tes ← template.exercises
  let deletedNames := changes.deletedExercises.map fun e => strLower e.exerciseName
  let skippedNames := changes.skippedExercises.map fun e => strLower e.exerciseName
  let updated ← processExistingExercises workout deletedNames skippedNames tes
  let updatedExercises ← appendAddedExercises workout changes.addedExercises updated
  pure { template with exercises := some updatedExercises, updatedAt := now }

/-- The fresh-template exercise copy of `createNewTemplate`. -/
def saveAsNewExercise (exercise : Exercise) (index : Nat) : Exercise :=
  { exercise with
    id := generatedId
    order := Int.ofNat index
    sets := saveAsNewSets 0 exercise.sets }
where
  saveAsNewSets : Nat → List Set → List Set
    | _, [] => []
    | i, s :: rest =>
      { id := generatedId
        setNumber := Int.ofNat (i + 1)
        targetReps := if s.completed then s.actualReps else s.targetReps
        targetWeight := if s.completed then s.actualWeight else s.targetWeight
        targetTime := if s.completed then s.actualTime else s.targetTime
        completed := false
        skipped := false } :: saveAsNewSets (i + 1) rest

/-- The indexed exercise walk of `createNewTemplate`. -/
def saveAsNewExercises : Nat → List Exercise → List Exercise
  | _, [] => []
  | i, e :: rest => saveAsNewExercise e i :: saveAsNewExercises (i + 1) rest

/-- `createNewTemplate` (strategy `save_as_new`): a fresh template named
after the original with a date suffix, built verbatim from the workout's
exercises.  `dateStr` stands for `now.toLocaleDateString(…)`. -/
def createNewTemplate (originalTemplate : WorkoutTemplate) (workout : WorkoutInstance)
    (now : Int) (dateStr : String) : Option WorkoutTemplate := do
  let wes ← workout.exercises
  pure
    { id := generatedId
      name := originalTemplate.name ++ " (" ++ dateStr ++ ")"
      description := originalTemplate.description
      exercises := some (saveAsNewExercises 0 wes)
      groups := none
      createdAt := now
      updatedAt := now
      lastUsed := none
      tags := originalTemplate.tags
      userId := originalTemplate.userId
      archived := none }

/-- `applyTemplateUpdate(template, workout, changes, option)`: dispatch on
the user-selected strategy.  The outer `Option` models a thrown exception,
the inner one the `null` result of `keep_original`. -/
def applyTemplateUpdate (originalTemplate : WorkoutTemplate) (workout : WorkoutInstance)
    (changes : WorkoutChanges) (option : UpdateOption) (now : Int) (dateStr : String) :
    Option (Option WorkoutTemplate) :=
  match option with
  | UpdateOption.values_only => (updateValuesOnly originalTemplate workout now).map some
  | UpdateOption.template_and_values =>
    (updateTemplateAndValues originalTemplate workout changes now).map some
  | UpdateOption.save_as_new => (createNewTemplate originalTemplate workout now dateStr).map some
  | UpdateOption.keep_original => some none

/-! ## Previous-performance resolver (`getPreviousWorkoutData`) -/

/-- JavaScript `Map.set` semantics on an association list: replace the
value of an existing key in place, otherwise append. -/
def mapSet (m : List (String × PreviousWorkoutData)) (k : String) (v : PreviousWorkoutData) :
    List (String × PreviousWorkoutData) :=
  if m.any (fun p => p.1 == k) then
    m.map fun p => if p.1 == k then (k, v) else p
  else
    m ++ [(k, v)]

/-- JavaScript `Map.get` semantics on an association list. -/
def mapGet (m : List (String × PreviousWorkoutData)) (k : String) :
    Option PreviousWorkoutData :=
  (m.find? fun p => p.1 == k).map fun p => p.2

/-- The inner instance scan of `getPreviousWorkoutData` for one lowercased
exercise name `k`: walk the ordered instance list; in each instance look
up the first exercise whose lowercased name is `k`; if it has a completed
set, extract every completed set's actual values and stop, otherwise keep
scanning.  The outer `Option` models the `TypeError` thrown when a scanned
instance has no `exercises` list. -/
def scanForKey (k : String) : List WorkoutInstance → Option (Option PreviousWorkoutData)
  | [] => some none
  | workout :: rest => do
    let wes ← workout.exercises
    match wes.find? (fun e => strLower e.name == k) with
    | some exercise =>
      if exercise.sets.any (fun s => s.completed) then
        let completedSets := (exercise.sets.filter fun s => s.completed).map fun s =>
          { setNumber := s.setNumber
            weight := s.actualWeight
            reps := s.actualReps
            time := s.actualTime : PreviousSetData }
        if 0 < completedSets.length then
          pure (some
            { exerciseId := exercise.id
              exerciseName := exercise.name
              lastPerformed := workout.startTime
              sets := completedSets })
        else
          scanForKey k rest
      else
        scanForKey k rest
    | none => scanForKey k rest

/-- The per-name loop of `getPreviousWorkoutData`, accumulating the result
map. -/
def resolveNames (docs : List WorkoutInstance) :
    List String → List (String × PreviousWorkoutData) →
    Option (List (String × PreviousWorkoutData))
  | [], acc => some acc
  | exerciseName :: rest, acc => do
    let r ← scanForKey (strLower exerciseName) docs
    match r with
    | some d => resolveNames docs rest (mapSet acc (strLower exerciseName) d)
    | none => resolveNames docs rest acc

/-- `getPreviousWorkoutData(userId, exerciseNames)`: the pure core of the
previous-performance resolver.  `history` is the owner's workout list in
most-recent-first order; the Firestore query keeps only finished
(`isActive == false`) instances and caps the scan window at the most
recent 50. -/
def getPreviousWorkoutData (exerciseNames : List String)
    (history : List WorkoutInstance) : Option (List (String × PreviousWorkoutData)) :=
  let docs := (history.filter fun w => !w.isActive).take 50
  resolveNames docs exerciseNames []

/-! ## Session clock (`WorkoutProvider` timer) -/

/-- The timer state of the `WorkoutProvider` context: the session start
instant, the accumulated paused duration, the instant the in-progress
pause began (present only while paused), the pause flag, the cached
elapsed-seconds value shown on screen, and whether a workout is active
(the periodic tick only runs for an active, unpaused session).  All
instants and durations are milliseconds. -/
structure TimerState where
  startTime : Int
  totalPausedMs : Int
  pauseStart : Option Int := none
  isTimerPaused : Bool
  elapsedSeconds : Int
  hasActiveWorkout : Bool
deriving DecidableEq, Repr

/-- `pauseTimer()`: when not already paused, record the current instant as
the pause start; otherwise do nothing. -/
def pauseTimer (now : Int) (s : TimerState) : TimerState :=
  if !s.isTimerPaused then
    { s with pauseStart := some now, isTimerPaused := true }
  else s

/-- `resumeTimer()`: when paused with a recorded pause start, add the
pause's duration to the paused total and clear the pause start; otherwise
do nothing. -/
def resumeTimer (now : Int) (s : TimerState) : TimerState :=
  if s.isTimerPaused then
    match s.pauseStart with
    | some pauseStartMs =>
      { s with
        totalPausedMs := s.totalPausedMs + (now - pauseStartMs)
        pauseStart := none
        isTimerPaused := false }
    | none => s
  else s

/-- One firing of the periodic one-second interval: for an active,
unpaused session, recompute the elapsed active seconds as
`floor(((now − start) − totalPaused) / 1000)`; while paused (or with no
active workout) the interval is not installed, so the sample is
unchanged. -/
def timerTick (now : Int) (s : TimerState) : TimerState :=
  if s.hasActiveWorkout && !s.isTimerPaused then
    { s with elapsedSeconds := Int.fdiv (now - s.startTime - s.totalPausedMs) 1000 }
  else s

/-! ## Observation helpers for the change-set classification

A lowercased exercise name belongs to one of five classes for a given
change set: modified, deleted, skipped, added, or unchanged (absent from
all four lists). -/

/-- The lowercased name `n` occurs in the change set's modified list. -/
def inModifiedClass (c : WorkoutChanges) (n : String) : Bool :=
  c.modifiedExercises.any fun m => strLower m.exerciseName == n

/-- The lowercased name `n` occurs in the change set's deleted list. -/
def inDeletedClass (c : WorkoutChanges) (n : String) : Bool :=
  c.deletedExercises.any fun d => strLower d.exerciseName == n

/-- The lowercased name `n` occurs in the change set's skipped list. -/
def inSkippedClass (c : WorkoutChanges) (n : String) : Bool :=
  c.skippedExercises.any fun s => strLower s.exerciseName == n

/-- The lowercased name `n` occurs in the change set's added list. -/
def inAddedClass (c : WorkoutChanges) (n : String) : Bool :=
  c.addedExercises.any fun a => strLower a.exerciseName == n

/-- The lowercased name `n` is unchanged: absent from all four lists. -/
def isUnchangedClass (c : WorkoutChanges) (n : String) : Bool :=
  !(inAddedClass c n || inDeletedClass c n || inSkippedClass c n || inModifiedClass c n)

/-- In how many of the five classes the lowercased name `n` appears. -/
def classCount (c : WorkoutChanges) (n : String) : Nat :=
  [inAddedClass c n, inDeletedClass c n, inSkippedClass c n, inModifiedClass c n,
    isUnchangedClass c n].count true

/-! ## Concrete inputs used by witnesses and counterexamples -/

/-- A "Bench Press" target set `n` of the §8 end-to-end scenario. -/
def benchTargetSet (n : Int) : Set :=
  { id := "ts" ++ toString n, setNumber := n, targetReps := some 5, targetWeight := some 185,
    completed := false, skipped := false }

/-- The §8 "Push Day" template: Bench Press, three sets of 5 at 185. -/
def pushDayTemplate : WorkoutTemplate :=
  { id := "t9", name := "Push Day",
    exercises := some [
      { id := "te1", name := "Bench Press", exerciseType := ExerciseType.strength,
        sets := [benchTargetSet 1, benchTargetSet 2, benchTargetSet 3], order := 0 } ],
    createdAt := 0, updatedAt := 0, userId := "u" }

/-- The §8 finished workout: set 3 completed as 6 at 195 and a fourth set
of 5 at 195 added and completed; no other edits. -/
def pushDayWorkout : WorkoutInstance :=
  { id := "w9", templateId := "t9", templateName := "Push Day", startTime := 0,
    exercises := some [
      { id := "we1", name := "Bench Press", exerciseType := ExerciseType.strength,
        sets := [
          { id := "ws1", setNumber := 1, targetReps := some 5, targetWeight := some 185,
            completed := false, skipped := false },
          { id := "ws2", setNumber := 2, targetReps := some 5, targetWeight := some 185,
            completed := false, skipped := false },
          { id := "ws3", setNumber := 3, targetReps := some 5, targetWeight := some 185,
            actualReps := some 6, actualWeight := some 195, completed := true, skipped := false },
          { id := "ws4", setNumber := 4, actualReps := some 5, actualWeight := some 195,
            completed := true, skipped := false } ],
        order := 0 } ],
    isActive := false, userId := "u" }

/-- The change set `detectChanges` produces for the §8 scenario. -/
def pushDayChanges : WorkoutChanges :=
  { modifiedExercises := [
      { exerciseId := "we1", exerciseName := "Bench Press", changeType := ChangeType.both,
        details := { setsAdded := some 1, setsRemoved := none, valuesChanged := some true } } ]
    deletedExercises := []
    skippedExercises := []
    addedExercises := [] }

/-- A one-exercise template ("bench", one target set of 5 reps). -/
def benchOnlyTemplate : WorkoutTemplate :=
  { id := "t", name := "T",
    exercises := some [
      { id := "te1", name := "bench", exerciseType := ExerciseType.strength,
        sets := [ { id := "ts1", setNumber := 1, targetReps := some 5,
                    completed := false, skipped := false } ],
        order := 0 } ],
    createdAt := 0, updatedAt := 0, userId := "u" }

/-- A workout with two same-named "bench" exercises: the first untouched,
the second completed with a changed rep count. -/
def duplicateBenchWorkout : WorkoutInstance :=
  { id := "w", templateId := "t", templateName := "T", startTime := 0,
    exercises := some [
      { id := "we1", name := "bench", exerciseType := ExerciseType.strength,
        sets := [ { id := "ws1", setNumber := 1, targetReps := some 5,
                    completed := false, skipped := false } ],
        order := 0 },
      { id := "we2", name := "bench", exerciseType := ExerciseType.strength,
        sets := [ { id := "ws2", setNumber := 1, targetReps := some 5, actualReps := some 8,
                    completed := true, skipped := false } ],
        order := 1 } ],
    isActive := false, userId := "u" }

/-- A template whose (deprecated) flat exercise list is empty. -/
def emptyTemplate : WorkoutTemplate :=
  { id := "t", name := "T", exercises := some [], createdAt := 0, updatedAt := 0, userId := "u" }

/-- A workout containing one brand-new "curl" exercise with a completed
set. -/
def curlWorkout : WorkoutInstance :=
  { id := "w", templateId := "t", templateName := "T", startTime := 0,
    exercises := some [
      { id := "e1", name := "curl", exerciseType := ExerciseType.strength,
        sets := [ { id := "s1", setNumber := 1, actualReps := some 10, actualWeight := some 50,
                    completed := true, skipped := false } ],
        order := 0 } ],
    isActive := false, userId := "u" }

/-- The change set recording "curl" as an added exercise. -/
def curlAddedChanges : WorkoutChanges :=
  { modifiedExercises := [], deletedExercises := [], skippedExercises := [],
    addedExercises := [ { exerciseId := "e1", exerciseName := "curl" } ] }

/-- A template with a "row" exercise of two sets, the second carrying a
distance target. -/
def rowTemplate : WorkoutTemplate :=
  { id := "t", name := "T",
    exercises := some [
      { id := "te1", name := "row", exerciseType := ExerciseType.cardio,
        sets := [
          { id := "ts1", setNumber := 1, targetReps := some 5, completed := false, skipped := false },
          { id := "ts2", setNumber := 2, targetDistance := some 100,
            completed := false, skipped := false } ],
        order := 0 } ],
    createdAt := 0, updatedAt := 0, userId := "u" }

/-- A workout on `rowTemplate` whose first set is completed with a changed
rep count and whose second, distance-targeted set is untouched. -/
def rowWorkout : WorkoutInstance :=
  { id := "w", templateId := "t", templateName := "T", startTime := 0,
    exercises := some [
      { id := "we1", name := "row", exerciseType := ExerciseType.cardio,
        sets := [
          { id := "ws1", setNumber := 1, targetReps := some 5, actualReps := some 6,
            completed := true, skipped := false },
          { id := "ws2", setNumber := 2, targetDistance := some 100,
            completed := false, skipped := false } ],
        order := 0 } ],
    isActive := false, userId := "u" }

/-- A template with a single distance-tracked "row" exercise. -/
def distanceTemplate : WorkoutTemplate :=
  { id := "t", name := "T",
    exercises := some [
      { id := "te1", name := "row", exerciseType := ExerciseType.cardio,
        sets := [ { id := "ts1", setNumber := 1, targetDistance := some 1000,
                    completed := false, skipped := false } ],
        order := 0 } ],
    createdAt := 0, updatedAt := 0, userId := "u" }

/-- A workout whose only entered value is an actual distance (set not
marked complete). -/
def distanceOnlyWorkout : WorkoutInstance :=
  { id := "w", templateId := "t", templateName := "T", startTime := 0,
    exercises := some [
      { id := "we1", name := "row", exerciseType := ExerciseType.cardio,
        sets := [ { id := "ws1", setNumber := 1, targetDistance := some 1000,
                    actualDistance := some 1200, completed := false, skipped := false } ],
        order := 0 } ],
    isActive := false, userId := "u" }

/-- A groups-format template: the deprecated flat exercise list is absent
and the exercises live in a group. -/
def groupsTemplate : WorkoutTemplate :=
  { id := "t", name := "T",
    groups := some [
      { id := "g1", name := "Main Workout", order := 0,
        exercises := [
          { id := "te1", name := "squat", exerciseType := ExerciseType.strength,
            sets := [ { id := "ts1", setNumber := 1, targetReps := some 5,
                        completed := false, skipped := false } ],
            order := 0 } ] } ],
    createdAt := 0, updatedAt := 0, userId := "u" }

/-- A finished groups-format workout instance (no flat exercise list). -/
def groupsWorkout : WorkoutInstance :=
  { id := "w", templateId := "t", templateName := "T", startTime := 0,
    groups := some [
      { id := "g2", name := "Main Workout", order := 0,
        exercises := [
          { id := "we1", name := "squat", exerciseType := ExerciseType.strength,
            sets := [ { id := "ws1", setNumber := 1, targetReps := some 5, actualReps := some 5,
                        completed := true, skipped := false } ],
            order := 0 } ] } ],
    isActive := false, userId := "u" }

/-- A finished workout with two same-named "a" exercises: the first has no
completed set, the second has one. -/
def duplicateNameHistoryWorkout : WorkoutInstance :=
  { id := "w", templateId := "t", templateName := "T", startTime := 42,
    exercises := some [
      { id := "e1", name := "a", exerciseType := ExerciseType.strength,
        sets := [ { id := "s1", setNumber := 1, targetReps := some 5,
                    completed := false, skipped := false } ],
        order := 0 },
      { id := "e2", name := "a", exerciseType := ExerciseType.strength,
        sets := [ { id := "s2", setNumber := 1, actualReps := some 9, actualWeight := some 70,
                    completed := true, skipped := false } ],
        order := 1 } ],
    isActive := false, userId := "u" }

/-! ## Derived concrete values and resolver observers -/

/-- A concrete running, unpaused clock state (2 seconds already spent
paused) used by the C8 witness. -/
def runningClockState : TimerState :=
  { startTime := 1000, totalPausedMs := 2000, pauseStart := none, isTimerPaused := false,
    elapsedSeconds := 0, hasActiveWorkout := true }

/-- The result of a first `values_only` application on the §8 scenario. -/
def pushDayValuesOnlyResult : WorkoutTemplate :=
  (updateValuesOnly pushDayTemplate pushDayWorkout 5).getD emptyTemplate

/-- The `values_only` output on the empty-list template. -/
def emptyTemplateUpdated : WorkoutTemplate :=
  { emptyTemplate with exercises := some ([] : List Exercise), updatedAt := 3 }

/-- The `template_and_values` output on the §8 scenario. -/
def pushDayReconciled : WorkoutTemplate :=
  (updateTemplateAndValues pushDayTemplate pushDayWorkout pushDayChanges 1).getD emptyTemplate

/-- Whether an instance's **first** exercise whose lowercased name is `k`
has at least one completed set — the hit test the resolver applies to each
scanned instance. -/
def firstMatchHasCompleted (k : String) (w : WorkoutInstance) : Bool :=
  match (w.exercises.getD []).find? (fun e => strLower e.name == k) with
  | some exercise => exercise.sets.any fun s => s.completed
  | none => false

/-- The record the resolver extracts from an instance for the lowercased
name `k`: the completed sets of the first name-matching exercise, in
order, with the source workout's start time. -/
def extractPrevData (k : String) (w : WorkoutInstance) : Option PreviousWorkoutData :=
  match (w.exercises.getD []).find? (fun e => strLower e.name == k) with
  | some exercise =>
    some
      { exerciseId := exercise.id
        exerciseName := exercise.name
        lastPerformed := w.startTime
        sets := (exercise.sets.filter fun s => s.completed).map fun s =>
          { setNumber := s.setNumber
            weight := s.actualWeight
            reps := s.actualReps
            time := s.actualTime } }
  | none => none

/-! ## Claim theorems -/

/-- **C9** — end-to-end scenario: on the "Push Day" template (Bench Press,
3×[5@185]) and the workout that completes set 3 as 6@195 and adds a
completed 4th set 5@195, `detectChanges` classifies Bench Press as
modified with change type `both` and `setsAdded = 1`, and applying
`applyTemplateUpdate` with strategy `template_and_values` yields a Bench
Press exercise with exactly 4 target sets valued
[5@185, 5@185, 6@195, 5@195], numbered sequentially. -/
theorem C9_end_to_end_scenario :
    detectChanges pushDayWorkout pushDayTemplate = some pushDayChanges ∧
    (applyTemplateUpdate pushDayTemplate pushDayWorkout pushDayChanges
        UpdateOption.template_and_values 1 "d").map
      (Option.map fun t => (t.exercises.getD []).map fun e =>
        (e.sets.length, e.sets.map fun s => (s.setNumber, s.targetReps, s.targetWeight))) =
      some (some [(4, [(1, some 5, some 185), (2, some 5, some 185),
                       (3, some 6, some 195), (4, some 5, some 195)])]) := by
  constructor
  · rfl
  · rfl

/-- **C1 counterexample** — the claim fails when one workout contains two
exercises with the same (case-insensitive) name: against a template
containing "bench", a workout with an untouched "bench" and a modified
"bench" puts the name in the skipped class and in the modified class, so
it appears in two of the five classes, not exactly one, although "bench"
occurs among the instance's exercise names. -/
theorem C1_counterexample :
    (detectChanges duplicateBenchWorkout benchOnlyTemplate).map
        (fun c => (classCount c "bench", inSkippedClass c "bench", inModifiedClass c "bench")) =
      some (2, true, true) ∧
    ((duplicateBenchWorkout.exercises.getD []).map fun e => strLower e.name).contains "bench" =
      true := by
  constructor
  · rfl
  · rfl

/-- **C2 counterexample** — `template_and_values` is not idempotent: with
an empty template, a workout containing the brand-new exercise "curl" and
a change set listing it as added, the first application yields one
exercise but re-applying the reconciler to that output with the same
workout and change set appends "curl" a second time, yielding two
exercises — a content difference no renaming of fresh identifiers or
timestamps can repair. -/
theorem C2_counterexample :
    ((updateTemplateAndValues emptyTemplate curlWorkout curlAddedChanges 0).bind fun t1 =>
        (updateTemplateAndValues t1 curlWorkout curlAddedChanges 0).map fun t2 =>
          ((t1.exercises.getD []).length, (t2.exercises.getD []).length,
            (t2.exercises.getD []).map fun e => e.name)) =
      some (1, 2, ["curl", "curl"]) := by
  rfl

/-- **C3 counterexample** — the reconstruction does not carry the target
distance: in the "row" workout, set 2 is not completed and carries
`targetDistance = 100`, yet the rebuilt template set under
`template_and_values` has no target distance at all (the source object
literal only lists reps/weight/time targets). -/
theorem C3_counterexample :
    ((detectChanges rowWorkout rowTemplate).bind fun c =>
        (updateTemplateAndValues rowTemplate rowWorkout c 0).map fun t =>
          (t.exercises.getD []).map fun e => e.sets.map fun s => s.targetDistance) =
      some [[none, none]] ∧
    ((rowWorkout.exercises.getD []).map fun e =>
        e.sets.map fun s => (s.completed, s.targetDistance)) =
      [[(true, none), (false, some 100)]] := by
  constructor
  · rfl
  · rfl

/-- **C5 counterexample** — an exercise whose only entered value is an
actual distance is still recorded as skipped: the skip test of
`detectChanges` checks `completed`, `actualReps`, `actualWeight` and
`actualTime`, but not `actualDistance`. -/
theorem C5_counterexample :
    (detectChanges distanceOnlyWorkout distanceTemplate).map (fun c => c.skippedExercises) =
      some [{ exerciseId := "we1", exerciseName := "row" }] ∧
    ((distanceOnlyWorkout.exercises.getD []).map fun e =>
        e.sets.map fun s => (s.completed, s.actualDistance)) =
      [[(false, some 1200)]] := by
  constructor
  · rfl
  · rfl

/-- **C6** — the engine is not total on groups-format records: on a
template and a finished instance whose deprecated flat `exercises` list is
absent (exercises stored in `groups`), `detectChanges`, both mutating
branches of `applyTemplateUpdate`, and `getPreviousWorkoutData` all
dereference the absent list and throw (modelled by `none`) instead of
degrading gracefully. -/
theorem C6_groups_format_throws :
    detectChanges groupsWorkout groupsTemplate = none ∧
    applyTemplateUpdate groupsTemplate groupsWorkout
      { modifiedExercises := [], deletedExercises := [], skippedExercises := [],
        addedExercises := [] } UpdateOption.values_only 0 "d" = none ∧
    applyTemplateUpdate groupsTemplate groupsWorkout
      { modifiedExercises := [], deletedExercises := [], skippedExercises := [],
        addedExercises := [] } UpdateOption.template_and_values 0 "d" = none ∧
    getPreviousWorkoutData ["squat"] [groupsWorkout] = none := by
  refine ⟨rfl, rfl, rfl, rfl⟩

/-- **C7 counterexample** — the resolver inspects only the first
name-matching exercise of each scanned instance: a finished instance
containing an uncompleted exercise "a" followed by a second exercise "a"
with a completed set does contain a name-matching exercise with at least
one completed set, yet the resolver returns an empty map for the request
["a"]. -/
theorem C7_counterexample :
    getPreviousWorkoutData ["a"] [duplicateNameHistoryWorkout] = some [] ∧
    ((duplicateNameHistoryWorkout.exercises.getD []).any fun e =>
        strLower e.name == "a" && e.sets.any fun s => s.completed) = true ∧
    duplicateNameHistoryWorkout.isActive = false := by
  refine ⟨rfl, rfl, rfl⟩

/-- **C8** — session clock: a tick samples
`elapsed = ⌊((now − start) − pausedTotal) / 1000⌋`; while paused a
`pause()` is a no-op and the elapsed sample stays frozen (an in-progress
pause contributes zero to `pausedTotal`); `resume()` when not paused is a
no-op; and sampling immediately after a `pause(); resume()` pair with no
time passing equals the sample taken before the pair. -/
theorem C8_session_clock (s : TimerState) (now : Int)
    (hA : s.hasActiveWorkout = true) (hP : s.isTimerPaused = false) :
    (timerTick now s).elapsedSeconds = ((now - s.startTime) - s.totalPausedMs).fdiv 1000 ∧
    (∀ s2 : TimerState, s2.isTimerPaused = true →
      pauseTimer now s2 = s2 ∧ timerTick now s2 = s2) ∧
    (∀ s3 : TimerState, s3.isTimerPaused = false → resumeTimer now s3 = s3) ∧
    (timerTick now (resumeTimer now (pauseTimer now s))).elapsedSeconds =
      (timerTick now s).elapsedSeconds := by
  refine ⟨?_, ?_, ?_, ?_⟩
  · simp [timerTick, hA, hP]
  · intro s2 h2
    exact ⟨by simp [pauseTimer, h2], by simp [timerTick, h2]⟩
  · intro s3 h3
    simp [resumeTimer, h3]
  · simp [pauseTimer, resumeTimer, timerTick, hA, hP]

/-- Witness for **C8** at a concrete clock state. -/
theorem C8_session_clock_witness :
    runningClockState.hasActiveWorkout = true ∧
    runningClockState.isTimerPaused = false ∧
    ((timerTick 10500 runningClockState).elapsedSeconds =
      ((10500 - runningClockState.startTime) - runningClockState.totalPausedMs).fdiv 1000 ∧
     (∀ s2 : TimerState, s2.isTimerPaused = true →
       pauseTimer 10500 s2 = s2 ∧ timerTick 10500 s2 = s2) ∧
     (∀ s3 : TimerState, s3.isTimerPaused = false → resumeTimer 10500 s3 = s3) ∧
     (timerTick 10500 (resumeTimer 10500 (pauseTimer 10500 runningClockState))).elapsedSeconds =
       (timerTick 10500 runningClockState).elapsedSeconds) :=
  ⟨rfl, rfl, C8_session_clock runningClockState 10500 rfl rfl⟩

/-! ## Lemmas about the `values_only` branch -/

theorem updateValuesSets_length (ws : List Set) (i : Nat) (l : List Set) :
    (updateValuesSets ws i l).length = l.length := by
  induction l generalizing i with
  | nil => rfl
  | cons t rest ih => simp [updateValuesSets, ih]

theorem updateValuesSets_getElem (ws : List Set) (i : Nat) (l : List Set) (j : Nat) :
    (updateValuesSets ws i l)[j]? = l[j]?.map fun ts =>
      match ws[i + j]? with
      | some w => if w.completed then overwriteTargets ts w else ts
      | none => ts := by
  induction l generalizing i j with
  | nil => simp [updateValuesSets]
  | cons t rest ih =>
    cases j with
    | zero => simp [updateValuesSets]
    | succ j =>
      have harith : i + 1 + j = i + (j + 1) := by omega
      have := ih (i + 1) j
      rw [harith] at this
      simpa [updateValuesSets] using this

theorem updateValuesSets_of_not_completed (ws : List Set)
    (h : ∀ w ∈ ws, w.completed = false) (i : Nat) (l : List Set) :
    updateValuesSets ws i l = l := by
  induction l generalizing i with
  | nil => rfl
  | cons t rest ih =>
    have hstep :
        (match ws[i]? with
          | some w => if w.completed then overwriteTargets t w else t
          | none => t) = t := by
      cases hw : ws[i]? with
      | none => rfl
      | some w => simp [h w (List.getElem?_mem hw)]
    simp [updateValuesSets, hstep, ih]

theorem overwriteTargets_idem (ts ws : Set) :
    overwriteTargets (overwriteTargets ts ws) ws = overwriteTargets ts ws := by
  cases ts
  cases hr : ws.actualReps <;> cases hwt : ws.actualWeight <;> cases htt : ws.actualTime <;>
    simp [overwriteTargets, hr, hwt, htt]

theorem updateValuesSets_idem (ws : List Set) (i : Nat) (l : List Set) :
    updateValuesSets ws i (updateValuesSets ws i l) = updateValuesSets ws i l := by
  induction l generalizing i with
  | nil => rfl
  | cons t rest ih =>
    cases hw : ws[i]? with
    | none => simp [updateValuesSets, hw, ih]
    | some w =>
      cases hc : w.completed with
      | false => simp [updateValuesSets, hw, hc, ih]
      | true => simp [updateValuesSets, hw, hc, ih, overwriteTargets_idem]

theorem updateValuesExercise_idem (wes : List Exercise) (te : Exercise) :
    updateValuesExercise wes (updateValuesExercise wes te) = updateValuesExercise wes te := by
  cases hf : wes.find? (fun e => strLower e.name == strLower te.name) with
  | none => simp [updateValuesExercise, hf]
  | some we => simp [updateValuesExercise, hf, updateValuesSets_idem]

theorem updateValuesExercises_eq (w : WorkoutInstance) (wes : List Exercise)
    (hw : w.exercises = some wes) (tes : List Exercise) :
    updateValuesExercises w tes = some (tes.map (updateValuesExercise wes)) := by
  induction tes with
  | nil => rfl
  | cons te rest ih => simp [updateValuesExercises, hw, ih]

theorem updateValuesExercises_idem (w : WorkoutInstance) (tes es : List Exercise)
    (h : updateValuesExercises w tes = some es) :
    updateValuesExercises w es = some es := by
  induction tes generalizing es with
  | nil =>
    have : es = [] := by simpa [updateValuesExercises] using h.symm
    subst this
    rfl
  | cons te rest ih =>
    cases hw : w.exercises with
    | none => simp [updateValuesExercises, hw] at h
    | some wes =>
      cases hr : updateValuesExercises w rest with
      | none => simp [updateValuesExercises, hw, hr] at h
      | some r =>
        have hes : updateValuesExercise wes te :: r = es := by
          simpa [updateValuesExercises, hw, hr] using h
        have ihr := ih r hr
        rw [← hes]
        simp [updateValuesExercises, hw, ihr, updateValuesExercise_idem]

theorem updateValuesOnly_shape (t : WorkoutTemplate) (w : WorkoutInstance) (now : Int)
    (t' : WorkoutTemplate) (h : updateValuesOnly t w now = some t') :
    ∃ tes es, t.exercises = some tes ∧ updateValuesExercises w tes = some es ∧
      t' = { t with exercises := some es, updatedAt := now } := by
  cases ht : t.exercises with
  | none => rw [updateValuesOnly, ht] at h; simp at h
  | some tes =>
    cases he : updateValuesExercises w tes with
    | none => rw [updateValuesOnly, ht] at h; simp [he] at h
    | some es =>
      rw [updateValuesOnly, ht] at h
      simp [he] at h
      exact ⟨tes, es, rfl, he, h.symm⟩

/-- **C2 (amended)** — only the `values_only` branch is idempotent:
re-applying `updateValuesOnly` to its own output with the same workout
yields that output again, only the `updatedAt` timestamp moving.  (The
`template_and_values` branch appends the change set's added exercises a
second time — see the counterexample — and `save_as_new` suffixes the
template name again.) -/
theorem C2_amended_values_only_idempotent (t : WorkoutTemplate) (w : WorkoutInstance)
    (n1 n2 : Int) (t1 : WorkoutTemplate) (h : updateValuesOnly t w n1 = some t1) :
    updateValuesOnly t1 w n2 = some { t1 with updatedAt := n2 } := by
  obtain ⟨tes, es, ht, he, ht1⟩ := updateValuesOnly_shape t w n1 t1 h
  have hidem := updateValuesExercises_idem w tes es he
  subst ht1
  simp [updateValuesOnly, hidem]

/-- Witness for **C2 (amended)** on the §8 scenario. -/
theorem C2_amended_witness :
    updateValuesOnly pushDayTemplate pushDayWorkout 5 = some pushDayValuesOnlyResult ∧
    updateValuesOnly pushDayValuesOnlyResult pushDayWorkout 7 =
      some { pushDayValuesOnlyResult with updatedAt := 7 } :=
  ⟨rfl, C2_amended_values_only_idempotent pushDayTemplate pushDayWorkout 5 7
    pushDayValuesOnlyResult rfl⟩

theorem updateValuesExercise_frame (wes : List Exercise) (te : Exercise) :
    (updateValuesExercise wes te).id = te.id ∧ (updateValuesExercise wes te).name = te.name ∧
    (updateValuesExercise wes te).exerciseType = te.exerciseType ∧
    (updateValuesExercise wes te).notes = te.notes ∧
    (updateValuesExercise wes te).restTimer = te.restTimer ∧
    (updateValuesExercise wes te).supersetWith = te.supersetWith ∧
    (updateValuesExercise wes te).order = te.order ∧
    (updateValuesExercise wes te).sets.length = te.sets.length := by
  cases hf : wes.find? (fun e => strLower e.name == strLower te.name) <;>
    simp [updateValuesExercise, hf, updateValuesSets_length]

theorem updateValuesExercise_of_none (wes : List Exercise) (te : Exercise)
    (hf : wes.find? (fun e => strLower e.name == strLower te.name) = none) :
    updateValuesExercise wes te = te := by
  simp [updateValuesExercise, hf]

theorem updateValuesExercise_of_some (wes : List Exercise) (te we : Exercise)
    (hf : wes.find? (fun e => strLower e.name == strLower te.name) = some we) :
    updateValuesExercise wes te =
      { te with sets := updateValuesSets we.sets 0 te.sets } := by
  simp [updateValuesExercise, hf]

theorem updateValuesExercise_of_no_completed (wes : List Exercise) (te we : Exercise)
    (hf : wes.find? (fun e => strLower e.name == strLower te.name) = some we)
    (hnc : ∀ s ∈ we.sets, s.completed = false) :
    updateValuesExercise wes te = te := by
  rw [updateValuesExercise_of_some wes te we hf,
    updateValuesSets_of_not_completed we.sets hnc]

/-- **C4** — frame of the `values_only` strategy: on a template with a
defined exercise list, the output keeps the exercise count, every
per-exercise scalar field, and every per-exercise set count; a template
set at index `i` is overwritten (reps/weight/time targets only, each
falling back to the previous target when the actual value is absent) only
when the name-matching workout exercise has a completed set at index `i`,
and is otherwise identical; exercises without a name match — and in
particular skipped exercises, none of whose sets are completed — come out
identical to the original. -/
theorem C4_values_only_frame (t : WorkoutTemplate) (w : WorkoutInstance) (now : Int)
    (tes wes : List Exercise) (ht : t.exercises = some tes) (hw : w.exercises = some wes) :
    ∃ es : List Exercise,
      updateValuesOnly t w now = some { t with exercises := some es, updatedAt := now } ∧
      es.length = tes.length ∧
      ∀ (j : Nat) (te : Exercise), tes[j]? = some te → ∃ oe : Exercise, es[j]? = some oe ∧
        oe.sets.length = te.sets.length ∧ oe.id = te.id ∧ oe.name = te.name ∧
        oe.exerciseType = te.exerciseType ∧ oe.notes = te.notes ∧
        oe.restTimer = te.restTimer ∧ oe.supersetWith = te.supersetWith ∧ oe.order = te.order ∧
        (wes.find? (fun e => strLower e.name == strLower te.name) = none → oe = te) ∧
        ∀ we : Exercise, wes.find? (fun e => strLower e.name == strLower te.name) = some we →
          ((∀ s ∈ we.sets, s.completed = false) → oe = te) ∧
          ∀ (i : Nat) (ts : Set), te.sets[i]? = some ts → ∃ os : Set, oe.sets[i]? = some os ∧
            ((∃ ws : Set, we.sets[i]? = some ws ∧ ws.completed = true ∧
                os = overwriteTargets ts ws) ∨
             (os = ts ∧ (we.sets[i]? = none ∨
                ∃ ws : Set, we.sets[i]? = some ws ∧ ws.completed = false))) := by
  refine ⟨tes.map (updateValuesExercise wes), ?_, by simp, ?_⟩
  · rw [updateValuesOnly, ht]
    simp [updateValuesExercises_eq w wes hw tes]
  · intro j te hj
    obtain ⟨h1, h2, h3, h4, h5, h6, h7, h8⟩ := updateValuesExercise_frame wes te
    refine ⟨updateValuesExercise wes te, by simp [hj], h8, h1, h2, h3, h4, h5, h6, h7,
      fun hf => updateValuesExercise_of_none wes te hf, ?_⟩
    intro we hf
    refine ⟨fun hnc => updateValuesExercise_of_no_completed wes te we hf hnc, ?_⟩
    intro i ts hts
    rw [updateValuesExercise_of_some wes te we hf]
    have hget := updateValuesSets_getElem we.sets 0 te.sets i
    rw [Nat.zero_add] at hget
    cases hws : we.sets[i]? with
    | none =>
      refine ⟨ts, ?_, Or.inr ⟨rfl, Or.inl rfl⟩⟩
      simp [hget, hts, hws]
    | some ws =>
      cases hc : ws.completed with
      | true =>
        refine ⟨overwriteTargets ts ws, ?_, Or.inl ⟨ws, rfl, hc, rfl⟩⟩
        simp [hget, hts, hws, hc]
      | false =>
        refine ⟨ts, ?_, Or.inr ⟨rfl, Or.inr ⟨ws, rfl, hc⟩⟩⟩
        simp [hget, hts, hws, hc]

/-- Witness for **C4** on the §8 scenario. -/
theorem C4_values_only_frame_witness :
    pushDayTemplate.exercises = some (pushDayTemplate.exercises.getD []) ∧
    pushDayWorkout.exercises = some (pushDayWorkout.exercises.getD []) ∧
    (∃ es : List Exercise, updateValuesOnly pushDayTemplate pushDayWorkout 5 =
        some { pushDayTemplate with exercises := some es, updatedAt := 5 } ∧
      es.length = (pushDayTemplate.exercises.getD []).length ∧
      ∀ (j : Nat) (te : Exercise), (pushDayTemplate.exercises.getD [])[j]? = some te →
        ∃ oe : Exercise, es[j]? = some oe ∧
        oe.sets.length = te.sets.length ∧ oe.id = te.id ∧ oe.name = te.name ∧
        oe.exerciseType = te.exerciseType ∧ oe.notes = te.notes ∧
        oe.restTimer = te.restTimer ∧ oe.supersetWith = te.supersetWith ∧ oe.order = te.order ∧
        ((pushDayWorkout.exercises.getD []).find?
            (fun e => strLower e.name == strLower te.name) = none → oe = te) ∧
        ∀ we : Exercise, (pushDayWorkout.exercises.getD []).find?
            (fun e => strLower e.name == strLower te.name) = some we →
          ((∀ s ∈ we.sets, s.completed = false) → oe = te) ∧
          ∀ (i : Nat) (ts : Set), te.sets[i]? = some ts → ∃ os : Set, oe.sets[i]? = some os ∧
            ((∃ ws : Set, we.sets[i]? = some ws ∧ ws.completed = true ∧
                os = overwriteTargets ts ws) ∨
             (os = ts ∧ (we.sets[i]? = none ∨
                ∃ ws : Set, we.sets[i]? = some ws ∧ ws.completed = false)))) :=
  ⟨rfl, rfl, C4_values_only_frame pushDayTemplate pushDayWorkout 5
    (pushDayTemplate.exercises.getD []) (pushDayWorkout.exercises.getD []) rfl rfl⟩

/-! ## Shape lemma for `template_and_values` and the scalar-field frame -/

theorem updateTemplateAndValues_shape (t : WorkoutTemplate) (w : WorkoutInstance)
    (c : WorkoutChanges) (now : Int) (t' : WorkoutTemplate)
    (h : updateTemplateAndValues t w c now = some t') :
    ∃ tes mid es, t.exercises = some tes ∧
      processExistingExercises w (c.deletedExercises.map fun e => strLower e.exerciseName)
        (c.skippedExercises.map fun e => strLower e.exerciseName) tes = some mid ∧
      appendAddedExercises w c.addedExercises mid = some es ∧
      t' = { t with exercises := some es, updatedAt := now } := by
  cases ht : t.exercises with
  | none => rw [updateTemplateAndValues, ht] at h; simp at h
  | some tes =>
    cases hp : processExistingExercises w
        (c.deletedExercises.map fun e => strLower e.exerciseName)
        (c.skippedExercises.map fun e => strLower e.exerciseName) tes with
    | none => rw [updateTemplateAndValues, ht] at h; simp [hp] at h
    | some mid =>
      cases ha : appendAddedExercises w c.addedExercises mid with
      | none => rw [updateTemplateAndValues, ht] at h; simp [hp, ha] at h
      | some es =>
        rw [updateTemplateAndValues, ht] at h
        simp [hp, ha] at h
        exact ⟨tes, mid, es, rfl, hp, ha, h.symm⟩

/-- **C10** — scalar-field frame of the two mutating strategies: whenever
`applyTemplateUpdate` under `values_only` or `template_and_values` returns
a template, its `id`, `name`, `description`, `tags`, `userId`,
`createdAt`, `lastUsed`, `archived` (and `groups`) fields equal the
original's; only the exercise list and `updatedAt` are replaced. -/
theorem C10_scalar_field_frame (t : WorkoutTemplate) (w : WorkoutInstance)
    (c : WorkoutChanges) (now : Int) (ds : String) (t' : WorkoutTemplate) :
    (applyTemplateUpdate t w c UpdateOption.values_only now ds = some (some t') →
      t'.id = t.id ∧ t'.name = t.name ∧ t'.description = t.description ∧
      t'.tags = t.tags ∧ t'.userId = t.userId ∧ t'.createdAt = t.createdAt ∧
      t'.lastUsed = t.lastUsed ∧ t'.archived = t.archived ∧ t'.groups = t.groups ∧
      t'.updatedAt = now) ∧
    (applyTemplateUpdate t w c UpdateOption.template_and_values now ds = some (some t') →
      t'.id = t.id ∧ t'.name = t.name ∧ t'.description = t.description ∧
      t'.tags = t.tags ∧ t'.userId = t.userId ∧ t'.createdAt = t.createdAt ∧
      t'.lastUsed = t.lastUsed ∧ t'.archived = t.archived ∧ t'.groups = t.groups ∧
      t'.updatedAt = now) := by
  constructor
  · intro h
    rw [applyTemplateUpdate] at h
    rw [Option.map_eq_some'] at h
    obtain ⟨a, ha, haeq⟩ := h
    have haeq' : a = t' := by simpa using haeq
    subst haeq'
    obtain ⟨tes, es, hte, hue, ht'⟩ := updateValuesOnly_shape t w now a ha
    subst ht'
    exact ⟨rfl, rfl, rfl, rfl, rfl, rfl, rfl, rfl, rfl, rfl⟩
  · intro h
    rw [applyTemplateUpdate] at h
    rw [Option.map_eq_some'] at h
    obtain ⟨a, ha, haeq⟩ := h
    have haeq' : a = t' := by simpa using haeq
    subst haeq'
    obtain ⟨tes, mid, es, hte, hp, hap, ht'⟩ := updateTemplateAndValues_shape t w c now a ha
    subst ht'
    exact ⟨rfl, rfl, rfl, rfl, rfl, rfl, rfl, rfl, rfl, rfl⟩

/-- Witness for **C10** at a concrete input. -/
theorem C10_scalar_field_frame_witness :
    applyTemplateUpdate emptyTemplate curlWorkout curlAddedChanges UpdateOption.values_only 3 "d" =
      some (some emptyTemplateUpdated) ∧
    (emptyTemplateUpdated.id = emptyTemplate.id ∧
      emptyTemplateUpdated.name = emptyTemplate.name ∧
      emptyTemplateUpdated.description = emptyTemplate.description ∧
      emptyTemplateUpdated.tags = emptyTemplate.tags ∧
      emptyTemplateUpdated.userId = emptyTemplate.userId ∧
      emptyTemplateUpdated.createdAt = emptyTemplate.createdAt ∧
      emptyTemplateUpdated.lastUsed = emptyTemplate.lastUsed ∧
      emptyTemplateUpdated.archived = emptyTemplate.archived ∧
      emptyTemplateUpdated.groups = emptyTemplate.groups ∧
      emptyTemplateUpdated.updatedAt = 3) :=
  ⟨rfl, (C10_scalar_field_frame emptyTemplate curlWorkout curlAddedChanges 3 "d"
    emptyTemplateUpdated).1 rfl⟩

/-! ## Characterization of the change detector's classification -/

theorem not_any_eq_all_not {α : Type} (l : List α) (p : α → Bool) :
    (!(l.any p)) = l.all fun a => !(p a) := by
  induction l with
  | nil => rfl
  | cons a l ih => simp [List.any_cons, List.all_cons, Bool.not_or, ih]

theorem classify_eq (tes : List Exercise) (originalNames : List String)
    (wes : List Exercise) :
    classifyInstanceExercises tes originalNames wes =
      (wes.filterMap (fun e =>
         if originalNames.contains (strLower e.name) then
           match tes.find? (fun e2 => strLower e2.name == strLower e.name) with
           | some oe => if hasAnyValues e then detectExerciseModification e oe else none
           | none => none
         else none),
       (wes.filter fun e =>
          originalNames.contains (strLower e.name) &&
          (tes.find? fun e2 => strLower e2.name == strLower e.name).isSome &&
          !(hasAnyValues e)).map (fun e => { exerciseId := e.id, exerciseName := e.name }),
       (wes.filter fun e => !(originalNames.contains (strLower e.name))).map
         fun e => { exerciseId := e.id, exerciseName := e.name }) := by
  induction wes with
  | nil => rfl
  | cons ex rest ih =>
    by_cases hmem : strLower ex.name ∈ originalNames
    · cases hffind : tes.find? (fun e2 => strLower e2.name == strLower ex.name) with
      | none =>
        simp [classifyInstanceExercises, hmem, hffind, ih, List.filter_cons,
          List.filterMap_cons]
      | some oe =>
        cases hv : hasAnyValues ex with
        | false =>
          simp [classifyInstanceExercises, hmem, hffind, hv, ih, List.filter_cons,
            List.filterMap_cons]
        | true =>
          cases hm : detectExerciseModification ex oe with
          | none =>
            simp [classifyInstanceExercises, hmem, hffind, hv, hm, ih, List.filter_cons,
              List.filterMap_cons]
          | some mo =>
            simp [classifyInstanceExercises, hmem, hffind, hv, hm, ih, List.filter_cons,
              List.filterMap_cons]
    · simp [classifyInstanceExercises, hmem, ih, List.filter_cons, List.filterMap_cons]

theorem detectChanges_some (w : WorkoutInstance) (t : WorkoutTemplate)
    (tes wes : List Exercise) (ht : t.exercises = some tes) (hw : w.exercises = some wes) :
    detectChanges w t = some
      { modifiedExercises :=
          (classifyInstanceExercises tes (tes.map fun e => strLower e.name) wes).1
        deletedExercises :=
          (tes.filter fun oe => !(wes.any fun e => strLower e.name == strLower oe.name)).map
            fun oe =>
              { exerciseId := oe.id
                exerciseName := oe.name
                originalSets := oe.sets.map fun s =>
                  { setNumber := s.setNumber
                    targetReps := s.targetReps
                    targetWeight := s.targetWeight
                    targetTime := s.targetTime } }
        skippedExercises :=
          (classifyInstanceExercises tes (tes.map fun e => strLower e.name) wes).2.1
        addedExercises :=
          (classifyInstanceExercises tes (tes.map fun e => strLower e.name) wes).2.2 } := by
  rw [detectChanges, ht, hw]
  rfl

theorem detectExerciseModification_name (we oe : Exercise) (m0 : ExerciseModification)
    (h : detectExerciseModification we oe = some m0) : m0.exerciseName = we.name := by
  rw [detectExerciseModification] at h
  split at h
  · exact absurd h (by simp)
  · cases h
    rfl

theorem not_hasAnyValues_eq (e : Exercise) :
    (!(hasAnyValues e)) = e.sets.all fun s =>
      !s.completed && !s.actualReps.isSome && !s.actualWeight.isSome &&
      !s.actualTime.isSome := by
  rw [hasAnyValues, not_any_eq_all_not]
  simp [Bool.not_or]

/-- **C5 (amended)** — an instance exercise whose name is in the template
is recorded as skipped exactly when none of its sets is completed and none
carries an actual reps, weight or time value; the actual distance is not
consulted by the code, so a distance-only exercise is still skipped (as
the counterexample shows). -/
theorem C5_amended_skipped_characterization (w : WorkoutInstance) (t : WorkoutTemplate)
    (tes wes : List Exercise) (c : WorkoutChanges)
    (ht : t.exercises = some tes) (hw : w.exercises = some wes)
    (hc : detectChanges w t = some c) :
    c.skippedExercises =
      (wes.filter fun e =>
        ((tes.map fun e2 => strLower e2.name).contains (strLower e.name)) &&
        (e.sets.all fun s =>
          !s.completed && !s.actualReps.isSome && !s.actualWeight.isSome &&
          !s.actualTime.isSome)).map
        fun e => { exerciseId := e.id, exerciseName := e.name } := by
  have hds := detectChanges_some w t tes wes ht hw
  rw [hc] at hds
  have hcc := Option.some.inj hds
  rw [hcc]
  change (classifyInstanceExercises tes (tes.map fun e => strLower e.name) wes).2.1 = _
  rw [classify_eq]
  dsimp only
  congr 1
  apply List.filter_congr
  intro e he
  cases hc2 : (tes.map fun e2 => strLower e2.name).contains (strLower e.name) with
  | false => simp [hc2]
  | true =>
    have hsome : (tes.find? fun e2 => strLower e2.name == strLower e.name).isSome = true := by
      rw [List.find?_isSome]
      have hmem := List.elem_iff.mp hc2
      obtain ⟨e2, he2, heq⟩ := List.mem_map.mp hmem
      exact ⟨e2, he2, by simp [heq]⟩
    simp [hc2, hsome, not_hasAnyValues_eq]

/-- Witness for **C5 (amended)** at the distance-only input. -/
theorem C5_amended_witness :
    detectChanges distanceOnlyWorkout distanceTemplate =
      some ((detectChanges distanceOnlyWorkout distanceTemplate).getD
        { modifiedExercises := [], deletedExercises := [], skippedExercises := [],
          addedExercises := [] }) ∧
    ((detectChanges distanceOnlyWorkout distanceTemplate).getD
        { modifiedExercises := [], deletedExercises := [], skippedExercises := [],
          addedExercises := [] }).skippedExercises =
      ((distanceOnlyWorkout.exercises.getD []).filter fun e =>
        (((distanceTemplate.exercises.getD []).map fun e2 => strLower e2.name).contains
          (strLower e.name)) &&
        (e.sets.all fun s =>
          !s.completed && !s.actualReps.isSome && !s.actualWeight.isSome &&
          !s.actualTime.isSome)).map
        fun e => { exerciseId := e.id, exerciseName := e.name } :=
  ⟨rfl, C5_amended_skipped_characterization distanceOnlyWorkout distanceTemplate
    (distanceTemplate.exercises.getD []) (distanceOnlyWorkout.exercises.getD [])
    ((detectChanges distanceOnlyWorkout distanceTemplate).getD
      { modifiedExercises := [], deletedExercises := [], skippedExercises := [],
        addedExercises := [] }) rfl rfl rfl⟩

theorem bool_and_split {a b : Bool} (h : (a && b) = true) : a = true ∧ b = true := by
  simp at h
  exact h

theorem five_class_count (a d s m : Bool)
    (had : a = true → d = true → False) (has : a = true → s = true → False)
    (ham : a = true → m = true → False) (hds : d = true → s = true → False)
    (hdm : d = true → m = true → False) (hsm : s = true → m = true → False) :
    ([a, d, s, m, !(a || d || s || m)].count true) = 1 := by
  cases a <;> cases d <;> cases s <;> cases m <;> simp_all [List.count_cons]

theorem modified_entry_spec (tes : List Exercise) (tn : List String) (e : Exercise)
    (m0 : ExerciseModification)
    (h : (if tn.contains (strLower e.name) then
            match tes.find? (fun e2 => strLower e2.name == strLower e.name) with
            | some oe => if hasAnyValues e then detectExerciseModification e oe else none
            | none => none
          else none) = some m0) :
    tn.contains (strLower e.name) = true ∧ hasAnyValues e = true ∧
      m0.exerciseName = e.name := by
  cases hcont : tn.contains (strLower e.name) with
  | false => rw [hcont] at h; simp at h
  | true =>
    rw [hcont] at h
    cases hf : tes.find? (fun e2 => strLower e2.name == strLower e.name) with
    | none => rw [hf] at h; simp at h
    | some oe =>
      rw [hf] at h
      rcases Bool.eq_false_or_eq_true (hasAnyValues e) with hv | hv
      · rw [hv] at h
        simp at h
        exact ⟨rfl, hv, detectExerciseModification_name e oe m0 h⟩
      · rw [hv] at h; simp at h

/-- **C1 (amended)** — for a template and finished instance whose exercise
lists are present, and whose instance exercise names are pairwise distinct
case-insensitively (the duplicate-name case is the spec's open question
and breaks the claim, as the counterexample shows), every exercise name
occurring in the template or the instance appears in exactly one of the
five classes modified / deleted / skipped / added / unchanged. -/
theorem C1_amended_exactly_one_class (w : WorkoutInstance) (t : WorkoutTemplate)
    (tes wes : List Exercise) (c : WorkoutChanges)
    (ht : t.exercises = some tes) (hw : w.exercises = some wes)
    (hnodup : (wes.map fun e => strLower e.name).Nodup)
    (hc : detectChanges w t = some c)
    (n : String)
    (hn : n ∈ tes.map (fun e => strLower e.name) ∨ n ∈ wes.map fun e => strLower e.name) :
    classCount c n = 1 := by
  have hds := detectChanges_some w t tes wes ht hw
  rw [hc] at hds
  have hcc := Option.some.inj hds
  have hA : c.addedExercises =
      (wes.filter fun e =>
        !((tes.map fun e2 => strLower e2.name).contains (strLower e.name))).map
        fun e => { exerciseId := e.id, exerciseName := e.name } := by
    rw [hcc, classify_eq]
  have hS : c.skippedExercises =
      (wes.filter fun e =>
        ((tes.map fun e2 => strLower e2.name).contains (strLower e.name)) &&
        (tes.find? fun e2 => strLower e2.name == strLower e.name).isSome &&
        !(hasAnyValues e)).map
        fun e => { exerciseId := e.id, exerciseName := e.name } := by
    rw [hcc, classify_eq]
  have hM : c.modifiedExercises =
      wes.filterMap (fun e =>
        if (tes.map fun e2 => strLower e2.name).contains (strLower e.name) then
          match tes.find? (fun e2 => strLower e2.name == strLower e.name) with
          | some oe => if hasAnyValues e then detectExerciseModification e oe else none
          | none => none
        else none) := by
    rw [hcc, classify_eq]
  have hD : c.deletedExercises =
      (tes.filter fun oe => !(wes.any fun e => strLower e.name == strLower oe.name)).map
        fun oe =>
          { exerciseId := oe.id
            exerciseName := oe.name
            originalSets := oe.sets.map fun s =>
              { setNumber := s.setNumber
                targetReps := s.targetReps
                targetWeight := s.targetWeight
                targetTime := s.targetTime } } := by
    rw [hcc]
  -- extraction of a witness exercise behind each class membership
  have hAddE : inAddedClass c n = true → ∃ e, e ∈ wes ∧ strLower e.name = n ∧
      (tes.map fun e2 => strLower e2.name).contains (strLower e.name) = false := by
    intro h
    rw [inAddedClass, hA] at h
    obtain ⟨x, hx, hqx⟩ := List.any_eq_true.mp h
    obtain ⟨e, hef, hfe⟩ := List.mem_map.mp hx
    obtain ⟨hew, hpe⟩ := List.mem_filter.mp hef
    subst hfe
    exact ⟨e, hew, by simpa using hqx, by simpa using hpe⟩
  have hSkipE : inSkippedClass c n = true → ∃ e, e ∈ wes ∧ strLower e.name = n ∧
      (tes.map fun e2 => strLower e2.name).contains (strLower e.name) = true ∧
      hasAnyValues e = false := by
    intro h
    rw [inSkippedClass, hS] at h
    obtain ⟨x, hx, hqx⟩ := List.any_eq_true.mp h
    obtain ⟨e, hef, hfe⟩ := List.mem_map.mp hx
    obtain ⟨hew, hpe⟩ := List.mem_filter.mp hef
    subst hfe
    have h1 := bool_and_split hpe
    have hcont := (bool_and_split h1.1).1
    have hnv : hasAnyValues e = false := by simpa using h1.2
    exact ⟨e, hew, by simpa using hqx, hcont, hnv⟩
  have hModE : inModifiedClass c n = true → ∃ e, e ∈ wes ∧ strLower e.name = n ∧
      (tes.map fun e2 => strLower e2.name).contains (strLower e.name) = true ∧
      hasAnyValues e = true := by
    intro h
    rw [inModifiedClass, hM] at h
    obtain ⟨m0, hm0, hqm⟩ := List.any_eq_true.mp h
    obtain ⟨e, hew, hfm⟩ := List.mem_filterMap.mp hm0
    obtain ⟨hcont, hv, hname⟩ := modified_entry_spec tes _ e m0 hfm
    refine ⟨e, hew, ?_, hcont, hv⟩
    have : strLower m0.exerciseName = n := by simpa using hqm
    rwa [hname] at this
  have hDelE : inDeletedClass c n = true → ∃ oe, oe ∈ tes ∧ strLower oe.name = n ∧
      (wes.any fun e => strLower e.name == strLower oe.name) = false := by
    intro h
    rw [inDeletedClass, hD] at h
    obtain ⟨x, hx, hqx⟩ := List.any_eq_true.mp h
    obtain ⟨oe, hof, hfo⟩ := List.mem_map.mp hx
    obtain ⟨hot, hpo⟩ := List.mem_filter.mp hof
    subst hfo
    exact ⟨oe, hot, by simpa using hqx, by simpa using hpo⟩
  -- pairwise exclusion of the four explicit classes
  have had : inAddedClass c n = true → inDeletedClass c n = true → False := by
    intro ha hd
    obtain ⟨e, hew, hen, _⟩ := hAddE ha
    obtain ⟨oe, hot, hon, hany⟩ := hDelE hd
    have : (wes.any fun e2 => strLower e2.name == strLower oe.name) = true :=
      List.any_eq_true.mpr ⟨e, hew, by simp [hen, hon]⟩
    rw [hany] at this
    exact Bool.false_ne_true this
  have has : inAddedClass c n = true → inSkippedClass c n = true → False := by
    intro ha hs
    obtain ⟨e1, _, he1n, hcf⟩ := hAddE ha
    obtain ⟨e2, _, he2n, hct, _⟩ := hSkipE hs
    rw [he1n] at hcf
    rw [he2n] at hct
    rw [hcf] at hct
    exact Bool.false_ne_true hct
  have ham : inAddedClass c n = true → inModifiedClass c n = true → False := by
    intro ha hm
    obtain ⟨e1, _, he1n, hcf⟩ := hAddE ha
    obtain ⟨e2, _, he2n, hct, _⟩ := hModE hm
    rw [he1n] at hcf
    rw [he2n] at hct
    rw [hcf] at hct
    exact Bool.false_ne_true hct
  have hds2 : inDeletedClass c n = true → inSkippedClass c n = true → False := by
    intro hd hs
    obtain ⟨oe, _, hon, hany⟩ := hDelE hd
    obtain ⟨e, hew, hen, _, _⟩ := hSkipE hs
    have : (wes.any fun e2 => strLower e2.name == strLower oe.name) = true :=
      List.any_eq_true.mpr ⟨e, hew, by simp [hen, hon]⟩
    rw [hany] at this
    exact Bool.false_ne_true this
  have hdm : inDeletedClass c n = true → inModifiedClass c n = true → False := by
    intro hd hm
    obtain ⟨oe, _, hon, hany⟩ := hDelE hd
    obtain ⟨e, hew, hen, _, _⟩ := hModE hm
    have : (wes.any fun e2 => strLower e2.name == strLower oe.name) = true :=
      List.any_eq_true.mpr ⟨e, hew, by simp [hen, hon]⟩
    rw [hany] at this
    exact Bool.false_ne_true this
  have hsm : inSkippedClass c n = true → inModifiedClass c n = true → False := by
    intro hs hm
    obtain ⟨e1, he1w, he1n, _, hnv⟩ := hSkipE hs
    obtain ⟨e2, he2w, he2n, _, hv⟩ := hModE hm
    have heq : e1 = e2 :=
      List.inj_on_of_nodup_map hnodup he1w he2w (by rw [he1n, he2n])
    rw [heq] at hnv
    rw [hnv] at hv
    exact Bool.false_ne_true hv
  exact five_class_count (inAddedClass c n) (inDeletedClass c n) (inSkippedClass c n)
    (inModifiedClass c n) had has ham hds2 hdm hsm

/-- Witness for **C1 (amended)** on the §8 scenario for the name
"bench press". -/
theorem C1_amended_witness :
    ((pushDayWorkout.exercises.getD []).map fun e => strLower e.name).Nodup ∧
    "bench press" ∈ (pushDayWorkout.exercises.getD []).map (fun e => strLower e.name) ∧
    classCount pushDayChanges "bench press" = 1 :=
  ⟨by decide, by decide,
    C1_amended_exactly_one_class pushDayWorkout pushDayTemplate
      (pushDayTemplate.exercises.getD []) (pushDayWorkout.exercises.getD [])
      pushDayChanges rfl rfl (by decide) rfl "bench press" (Or.inr (by decide))⟩

/-! ## Lemmas about the `template_and_values` branch -/

theorem rebuildSets_length (i : Nat) (l : List Set) :
    (rebuildSets i l).length = l.length := by
  induction l generalizing i with
  | nil => rfl
  | cons s rest ih => simp [rebuildSets, ih]

theorem rebuildSets_getElem (i : Nat) (l : List Set) (j : Nat) :
    (rebuildSets i l)[j]? = l[j]?.map fun s => rebuildSet s (i + j) := by
  induction l generalizing i j with
  | nil => simp [rebuildSets]
  | cons s rest ih =>
    cases j with
    | zero => simp [rebuildSets]
    | succ j =>
      have harith : i + 1 + j = i + (j + 1) := by omega
      have := ih (i + 1) j
      rw [harith] at this
      simpa [rebuildSets] using this

theorem processExisting_eq (w : WorkoutInstance) (wes : List Exercise)
    (hw : w.exercises = some wes) (dn sn : List String) (tes : List Exercise) :
    processExistingExercises w dn sn tes =
      some ((tes.filter fun te => !(dn.contains (strLower te.name))).map fun te =>
        if sn.contains (strLower te.name) then te
        else
          match wes.find? (fun e => strLower e.name == strLower te.name) with
          | none => te
          | some we => { te with sets := rebuildSets 0 we.sets
                                 restTimer := we.restTimer }) := by
  induction tes with
  | nil => rfl
  | cons te rest ih =>
    by_cases hd : strLower te.name ∈ dn
    · simp [processExistingExercises, hd, ih, List.filter_cons]
    · by_cases hs : strLower te.name ∈ sn
      · simp [processExistingExercises, hd, hs, ih, List.filter_cons, hw]
      · cases hf : wes.find? (fun e => strLower e.name == strLower te.name) with
        | none => simp [processExistingExercises, hd, hs, hf, ih, List.filter_cons, hw]
        | some we => simp [processExistingExercises, hd, hs, hf, ih, List.filter_cons, hw]

theorem appendAdded_prefix (w : WorkoutInstance) :
    ∀ (as2 : List AddedExercise) (acc r : List Exercise),
      appendAddedExercises w as2 acc = some r → ∃ extra, r = acc ++ extra := by
  intro as2
  induction as2 with
  | nil =>
    intro acc r h
    have : acc = r := by simpa [appendAddedExercises] using h
    exact ⟨[], by simp [this]⟩
  | cons a rest ih =>
    intro acc r h
    cases hw : w.exercises with
    | none => simp [appendAddedExercises, hw] at h
    | some wes =>
      cases hf : wes.find? (fun e => e.id == a.exerciseId) with
      | some we =>
        have h2 : appendAddedExercises w rest (acc ++ [newTemplateExercise we acc.length]) =
            some r := by
          simpa [appendAddedExercises, hw, hf] using h
        obtain ⟨extra, hre⟩ := ih _ _ h2
        exact ⟨[newTemplateExercise we acc.length] ++ extra, by rw [hre, List.append_assoc]⟩
      | none =>
        have h2 : appendAddedExercises w rest acc = some r := by
          simpa [appendAddedExercises, hw, hf] using h
        exact ih _ _ h2

/-- **C3 (amended)** — under `template_and_values`, a template exercise
that is neither deleted-listed nor skipped-listed and has a name-matching
workout exercise is replaced by a reconstruction of that workout exercise:
one target set per workout set, numbered sequentially from 1, carrying the
actual values where the set is completed and the workout set's carried
targets otherwise in the reps, weight and time dimensions, with the rest
timer taken from the workout exercise.  The target distance is **not**
carried: the rebuilt set always has none (this is the amendment the
counterexample forces). -/
theorem C3_amended_reconstruction (t : WorkoutTemplate) (w : WorkoutInstance)
    (c : WorkoutChanges) (now : Int) (t' : WorkoutTemplate) (tes wes : List Exercise)
    (te we : Exercise)
    (ht : t.exercises = some tes) (hw : w.exercises = some wes)
    (hres : updateTemplateAndValues t w c now = some t')
    (hte : te ∈ tes)
    (hdel : (c.deletedExercises.map fun e => strLower e.exerciseName).contains
      (strLower te.name) = false)
    (hskip : (c.skippedExercises.map fun e => strLower e.exerciseName).contains
      (strLower te.name) = false)
    (hfind : wes.find? (fun e => strLower e.name == strLower te.name) = some we) :
    ∃ es : List Exercise, t'.exercises = some es ∧ ∃ oe ∈ es,
      oe.id = te.id ∧ oe.name = te.name ∧ oe.restTimer = we.restTimer ∧
      oe.sets.length = we.sets.length ∧
      ∀ (i : Nat) (ws : Set), we.sets[i]? = some ws → ∃ os : Set, oe.sets[i]? = some os ∧
        os.setNumber = Int.ofNat (i + 1) ∧
        os.targetReps = (if ws.completed then ws.actualReps else ws.targetReps) ∧
        os.targetWeight = (if ws.completed then ws.actualWeight else ws.targetWeight) ∧
        os.targetTime = (if ws.completed then ws.actualTime else ws.targetTime) ∧
        os.targetDistance = none := by
  obtain ⟨tes', mid, es, ht2, hp, ha, ht'⟩ := updateTemplateAndValues_shape t w c now t' hres
  rw [ht] at ht2
  have htes : tes = tes' := Option.some.inj ht2
  subst htes
  rw [processExisting_eq w wes hw _ _ tes] at hp
  have hmid := Option.some.inj hp
  obtain ⟨extra, hes⟩ := appendAdded_prefix w c.addedExercises mid es ha
  subst ht'
  refine ⟨es, rfl, ?_⟩
  refine ⟨{ te with sets := rebuildSets 0 we.sets, restTimer := we.restTimer }, ?_, rfl, rfl,
    rfl, ?_, ?_⟩
  · rw [hes]
    apply List.mem_append_left
    rw [← hmid]
    apply List.mem_map.mpr
    refine ⟨te, List.mem_filter.mpr ⟨hte, by rw [hdel]; rfl⟩, ?_⟩
    show (if (c.skippedExercises.map fun e => strLower e.exerciseName).contains
          (strLower te.name) then te
      else
        match wes.find? (fun e => strLower e.name == strLower te.name) with
        | none => te
        | some we => { te with sets := rebuildSets 0 we.sets, restTimer := we.restTimer }) =
      { te with sets := rebuildSets 0 we.sets, restTimer := we.restTimer }
    rw [hskip]
    simp [hfind]
  · simpa using rebuildSets_length 0 we.sets
  · intro i ws hws
    have hget := rebuildSets_getElem 0 we.sets i
    rw [Nat.zero_add] at hget
    refine ⟨rebuildSet ws i, ?_, rfl, rfl, rfl, rfl, rfl⟩
    simp only [hget, hws, Option.map_some']

/-- Witness for **C3 (amended)** on the §8 scenario. -/
theorem C3_amended_witness :
    updateTemplateAndValues pushDayTemplate pushDayWorkout pushDayChanges 1 =
      some pushDayReconciled ∧
    (∃ es : List Exercise, pushDayReconciled.exercises = some es ∧ ∃ oe ∈ es,
      oe.id = "te1" ∧ oe.name = "Bench Press" ∧
      oe.restTimer = ((pushDayWorkout.exercises.getD []).getD 0 default).restTimer ∧
      oe.sets.length = ((pushDayWorkout.exercises.getD []).getD 0 default).sets.length ∧
      ∀ (i : Nat) (ws : Set),
        ((pushDayWorkout.exercises.getD []).getD 0 default).sets[i]? = some ws →
        ∃ os : Set, oe.sets[i]? = some os ∧
          os.setNumber = Int.ofNat (i + 1) ∧
          os.targetReps = (if ws.completed then ws.actualReps else ws.targetReps) ∧
          os.targetWeight = (if ws.completed then ws.actualWeight else ws.targetWeight) ∧
          os.targetTime = (if ws.completed then ws.actualTime else ws.targetTime) ∧
          os.targetDistance = none) := by
  constructor
  · rfl
  · have h := C3_amended_reconstruction pushDayTemplate pushDayWorkout pushDayChanges 1
      pushDayReconciled (pushDayTemplate.exercises.getD []) (pushDayWorkout.exercises.getD [])
      ((pushDayTemplate.exercises.getD []).getD 0 default)
      ((pushDayWorkout.exercises.getD []).getD 0 default)
      rfl rfl rfl (by decide) rfl rfl rfl
    exact h

/-! ## Characterization of the previous-performance resolver -/

theorem find?_replace_self (m : List (String × PreviousWorkoutData)) (k : String)
    (v : PreviousWorkoutData) (hany : (m.any fun p => p.1 == k) = true) :
    ((m.map fun p => if p.1 == k then (k, v) else p).find? fun p => p.1 == k) =
      some (k, v) := by
  induction m with
  | nil => simp at hany
  | cons a m ih =>
    cases hp : (a.1 == k) with
    | true =>
      rw [List.map_cons]
      have hface : (if a.1 == k then (k, v) else a) = (k, v) := by rw [hp]; rfl
      rw [hface]
      exact List.find?_cons_of_pos _ (by simp)
    | false =>
      have hany2 : (m.any fun p => p.1 == k) = true := by
        simpa [List.any_cons, hp] using hany
      rw [List.map_cons]
      have hface : (if a.1 == k then (k, v) else a) = a := by rw [hp]; rfl
      rw [hface]
      rw [List.find?_cons_of_neg _ (by simp [hp])]
      exact ih hany2

theorem find?_replace_other (m : List (String × PreviousWorkoutData)) (k : String)
    (v : PreviousWorkoutData) (k2 : String) (hk : (k == k2) = false) :
    ((m.map fun p => if p.1 == k then (k, v) else p).find? fun p => p.1 == k2) =
      m.find? fun p => p.1 == k2 := by
  induction m with
  | nil => rfl
  | cons a m ih =>
    cases hp : (a.1 == k) with
    | true =>
      have ha1 : a.1 = k := by simpa using hp
      rw [List.map_cons]
      have hface : (if a.1 == k then (k, v) else a) = (k, v) := by rw [hp]; rfl
      rw [hface]
      rw [List.find?_cons_of_neg _ (by simp [hk]),
        List.find?_cons_of_neg _ (by simp [ha1, hk])]
      exact ih
    | false =>
      rw [List.map_cons]
      have hface : (if a.1 == k then (k, v) else a) = a := by rw [hp]; rfl
      rw [hface]
      cases hq : (a.1 == k2) with
      | true =>
        rw [List.find?_cons_of_pos _ (by simp [hq]), List.find?_cons_of_pos _ (by simp [hq])]
      | false =>
        rw [List.find?_cons_of_neg _ (by simp [hq]), List.find?_cons_of_neg _ (by simp [hq])]
        exact ih

theorem mapGet_mapSet_self (m : List (String × PreviousWorkoutData)) (k : String)
    (v : PreviousWorkoutData) : mapGet (mapSet m k v) k = some v := by
  cases hany : (m.any fun p => p.1 == k) with
  | false =>
    have hnone : (m.find? fun p => p.1 == k) = none := by
      rw [List.find?_eq_none]
      intro p hp
      have := List.any_eq_false.mp hany p hp
      simp [this]
    rw [mapSet, hany]
    change mapGet (m ++ [(k, v)]) k = some v
    rw [mapGet, List.find?_append, hnone]
    rw [List.find?_cons_of_pos _ (by simp)]
    rfl
  | true =>
    rw [mapSet, hany]
    change mapGet (m.map fun p => if p.1 == k then (k, v) else p) k = some v
    rw [mapGet, find?_replace_self m k v hany]
    rfl

theorem mapGet_mapSet_other (m : List (String × PreviousWorkoutData)) (k : String)
    (v : PreviousWorkoutData) (k2 : String) (hk : (k == k2) = false) :
    mapGet (mapSet m k v) k2 = mapGet m k2 := by
  cases hany : (m.any fun p => p.1 == k) with
  | false =>
    rw [mapSet, hany]
    simp only [Bool.false_eq_true, if_false]
    rw [mapGet, List.find?_append]
    have hlast : (([(k, v)] : List (String × PreviousWorkoutData)).find? fun p => p.1 == k2) =
        none := by
      simp [List.find?_cons, hk]
    rw [hlast]
    cases hfm : (m.find? fun p => p.1 == k2) <;> simp [mapGet, hfm]
  | true =>
    rw [mapSet, hany]
    simp only [if_true]
    rw [mapGet, find?_replace_other m k v k2 hk, mapGet]

theorem scanForKey_eq (k : String) :
    ∀ docs : List WorkoutInstance, (∀ d ∈ docs, d.exercises.isSome = true) →
      scanForKey k docs =
        some ((docs.find? (firstMatchHasCompleted k)).bind (extractPrevData k)) := by
  intro docs
  induction docs with
  | nil => intro _; rfl
  | cons d rest ih =>
    intro hd
    have hd0 := hd d (List.mem_cons_self d rest)
    obtain ⟨wes, hwes⟩ := Option.isSome_iff_exists.mp hd0
    have hrest := fun d2 h2 => hd d2 (List.mem_cons_of_mem d h2)
    cases hf : wes.find? (fun e => strLower e.name == k) with
    | none =>
      have hfmc : firstMatchHasCompleted k d = false := by
        rw [firstMatchHasCompleted, hwes]
        simp [hf]
      simp [scanForKey, hwes, hf, ih hrest, hfmc]
    | some exercise =>
      cases hcset : (exercise.sets.any fun s => s.completed) with
      | false =>
        have hfmc : firstMatchHasCompleted k d = false := by
          rw [firstMatchHasCompleted, hwes]
          simp [hf, hcset]
        simp [scanForKey, hwes, hf, hcset, ih hrest, hfmc]
        intro x hx hcomp hl
        have hx2 : (exercise.sets.any fun s => s.completed) = true :=
          List.any_eq_true.mpr ⟨x, hx, hcomp⟩
        rw [hcset] at hx2
        exact absurd hx2 Bool.false_ne_true
      | true =>
        have hfmc : firstMatchHasCompleted k d = true := by
          rw [firstMatchHasCompleted, hwes]
          simp [hf, hcset]
        obtain ⟨s0, hs0, hc0⟩ := List.any_eq_true.mp hcset
        have hlen : 0 < (exercise.sets.filter fun s => s.completed).length :=
          List.length_pos.mpr (List.ne_nil_of_mem (List.mem_filter.mpr ⟨hs0, hc0⟩))
        simp [scanForKey, hwes, hf, hfmc, extractPrevData]
        rw [if_pos ⟨s0, hs0, hc0⟩, if_pos hlen]

theorem resolveNames_spec (docs : List WorkoutInstance)
    (hd : ∀ d ∈ docs, d.exercises.isSome = true) :
    ∀ (names : List String) (acc : List (String × PreviousWorkoutData)),
      ∃ m, resolveNames docs names acc = some m ∧
        ∀ k, mapGet m k =
          if ((names.any fun n2 => strLower n2 == k) &&
              ((docs.find? (firstMatchHasCompleted k)).bind (extractPrevData k)).isSome) = true
          then (docs.find? (firstMatchHasCompleted k)).bind (extractPrevData k)
          else mapGet acc k := by
  intro names
  induction names with
  | nil =>
    intro acc
    exact ⟨acc, rfl, fun k => by simp⟩
  | cons n rest ih =>
    intro acc
    have hscan := scanForKey_eq (strLower n) docs hd
    cases htar : (docs.find? (firstMatchHasCompleted (strLower n))).bind
        (extractPrevData (strLower n)) with
    | some dv =>
      obtain ⟨m, hm, hmg⟩ := ih (mapSet acc (strLower n) dv)
      rw [htar] at hscan
      refine ⟨m, by simp [resolveNames, hscan, hm], ?_⟩
      intro k
      rw [hmg k]
      by_cases hk : (strLower n == k) = true
      · have hkeq : strLower n = k := by simpa using hk
        subst hkeq
        rw [htar]
        simp [mapGet_mapSet_self]
      · have hk2 : (strLower n == k) = false := by simpa using hk
        rw [mapGet_mapSet_other acc (strLower n) dv k hk2]
        simp [List.any_cons, hk2]
    | none =>
      obtain ⟨m, hm, hmg⟩ := ih acc
      rw [htar] at hscan
      refine ⟨m, by simp [resolveNames, hscan, hm], ?_⟩
      intro k
      rw [hmg k]
      by_cases hk : (strLower n == k) = true
      · have hkeq : strLower n = k := by simpa using hk
        subst hkeq
        rw [htar]
        simp
      · have hk2 : (strLower n == k) = false := by simpa using hk
        simp [List.any_cons, hk2]

/-- **C7 (amended)** — the resolver returns a map keyed by lowercased
requested name; an entry, when present, is extracted from the first
scanned instance (finished instances only, scan window capped at 50)
whose **first** name-matching exercise has at least one completed set —
older instances are never consulted — and holds exactly that exercise's
completed sets in order with the source workout's timestamp; a requested
name with no such instance in the window, and any key that is not a
lowercased requested name, is absent from the map.  (The amendment: the
code inspects only the first name-matching exercise per instance, as the
counterexample with a duplicated name shows.) -/
theorem C7_amended_resolver (names : List String) (history : List WorkoutInstance)
    (hd : ∀ d ∈ (history.filter fun w2 => !w2.isActive).take 50, d.exercises.isSome = true) :
    ∃ m, getPreviousWorkoutData names history = some m ∧
      (∀ n ∈ names, mapGet m (strLower n) =
        (((history.filter fun w2 => !w2.isActive).take 50).find?
          (firstMatchHasCompleted (strLower n))).bind (extractPrevData (strLower n))) ∧
      ∀ k, (names.any fun n2 => strLower n2 == k) = false → mapGet m k = none := by
  obtain ⟨m, hm, hmg⟩ := resolveNames_spec ((history.filter fun w2 => !w2.isActive).take 50)
    hd names []
  refine ⟨m, hm, ?_, ?_⟩
  · intro n hn
    rw [hmg (strLower n)]
    have hmem : (names.any fun n2 => strLower n2 == strLower n) = true :=
      List.any_eq_true.mpr ⟨n, hn, by simp⟩
    cases htar : (((history.filter fun w2 => !w2.isActive).take 50).find?
        (firstMatchHasCompleted (strLower n))).bind (extractPrevData (strLower n)) with
    | some dv => simp [htar, hmem, mapGet]
    | none => simp [htar, mapGet]
  · intro k hk
    rw [hmg k]
    simp [hk, mapGet]

/-- Witness for **C7 (amended)** on the §8 workout history. -/
theorem C7_amended_witness :
    (∀ d ∈ ([pushDayWorkout].filter fun w2 => !w2.isActive).take 50,
      d.exercises.isSome = true) ∧
    (∃ m, getPreviousWorkoutData ["Bench Press"] [pushDayWorkout] = some m ∧
      (∀ n ∈ ["Bench Press"], mapGet m (strLower n) =
        ((([pushDayWorkout].filter fun w2 => !w2.isActive).take 50).find?
          (firstMatchHasCompleted (strLower n))).bind (extractPrevData (strLower n))) ∧
      ∀ k, ((["Bench Press"] : List String).any fun n2 => strLower n2 == k) = false →
        mapGet m k = none) :=
  ⟨by decide, C7_amended_resolver ["Bench Press"] [pushDayWorkout] (by decide)⟩

end Lifted
